import Mathlib

/-!
# SimDock 3.1 — verification of spec claims

Shallow embedding of the parts of the SimDock 3.1 source (Python) that the
frozen claims talk about, together with theorems settling each claim.

Source files embedded:
* `core/docking_engine.py`  — `BaseDockingEngine.get_adaptive_exhaustiveness`,
  `VinaEngine.parse_output`, `VinaEngine.validate_parameters`
* `core/config_manager.py`  — `ConfigManager._deep_merge`
* `core/file_manager.py`    — `FileManager.create_temp_directory`,
  `FileManager._validate_file_signature`
* `gui/main_window.py`      — `SimDockApp._run_batch_docking`
* `core/project_manager.py` — the seven current-project operations

Python values are modelled as follows: Python `int`/`float` scalar values as
`ℚ` (the claims only involve exact decimal values), `str` as `String`,
`None`/exceptions as `Option`/`Except`, Python lists as `List`, and Python
`dict`s as insertion-ordered association lists.
-/

namespace SimDock

/-! ## Adaptive exhaustiveness (`core/docking_engine.py` lines 84–99)

```python
def get_adaptive_exhaustiveness(self, ligand_file: str, base_exhaustiveness: int = None) -> int:
    if base_exhaustiveness is None:
        base_exhaustiveness = self.get_default_parameters()['exhaustiveness']
    thresholds = self.config_manager.get_docking_setting("adaptive_exhaustiveness_thresholds", [7, 12])
    values = self.config_manager.get_docking_setting("adaptive_exhaustiveness_values", [8, 16, 32])
    rot_bonds = self.get_rotatable_bonds(ligand_file)
    if rot_bonds <= thresholds[0]:
        return values[0]
    elif rot_bonds <= thresholds[1]:
        return values[1]
    else:
        return values[2]
```

The ligand file enters only through `get_rotatable_bonds`, so the embedding
takes the computed rotatable-bond count `rot_bonds` directly.  The
configuration lists are passed in as arguments (`get_docking_setting` returns
whatever the configuration holds; the compiled-in defaults are `[7, 12]` and
`[8, 16, 32]`).  Python list indexing raises `IndexError` on a too-short
list, and the branches index lazily, hence the `Option`-valued embedding
using `List.get?` at exactly the accesses the Python code performs. -/

/-- Default parameters of `BaseDockingEngine.get_default_parameters`
(`exhaustiveness` entry). -/
def defaultExhaustiveness : ℤ := 8

/-- Embedding of `BaseDockingEngine.get_adaptive_exhaustiveness`.
`base` is the `base_exhaustiveness` argument (`none` = Python `None`
default); it is resolved to the default exactly as the code does, and —
like the code — never used afterwards. -/
def get_adaptive_exhaustiveness (thresholds values : List ℤ)
    (rot_bonds : ℤ) (base : Option ℤ) : Option ℤ :=
  let _base_exhaustiveness : ℤ := base.getD defaultExhaustiveness
  match thresholds.get? 0 with
  | none => none
  | some t0 =>
    if rot_bonds ≤ t0 then values.get? 0
    else
      match thresholds.get? 1 with
      | none => none
      | some t1 =>
        if rot_bonds ≤ t1 then values.get? 1
        else values.get? 2

/-- The default adaptive-exhaustiveness thresholds configuration
(`config_manager.py`, `_get_default_config`, `"adaptive_exhaustiveness_thresholds"`). -/
def defaultThresholds : List ℤ := [7, 12]

/-- The default adaptive-exhaustiveness values configuration
(`config_manager.py`, `_get_default_config`, `"adaptive_exhaustiveness_values"`). -/
def defaultValues : List ℤ := [8, 16, 32]

end SimDock

/-- C1: with the default configuration (thresholds `[7, 12]`, values
`[8, 16, 32]`), `get_adaptive_exhaustiveness` returns 8 when the
rotatable-bond count `r` satisfies `r ≤ 7`, 16 when `7 < r ≤ 12`, and 32
when `r > 12`; in particular rotatable-bond counts 0, 7, 8, 12, 13, 100
yield exhaustiveness 8, 8, 16, 16, 32, 32. -/
theorem C1_adaptive_exhaustiveness_default :
    (∀ r : ℤ, ∀ b : Option ℤ, r ≤ 7 →
      SimDock.get_adaptive_exhaustiveness SimDock.defaultThresholds SimDock.defaultValues r b = some 8) ∧
    (∀ r : ℤ, ∀ b : Option ℤ, 7 < r → r ≤ 12 →
      SimDock.get_adaptive_exhaustiveness SimDock.defaultThresholds SimDock.defaultValues r b = some 16) ∧
    (∀ r : ℤ, ∀ b : Option ℤ, 12 < r →
      SimDock.get_adaptive_exhaustiveness SimDock.defaultThresholds SimDock.defaultValues r b = some 32) ∧
    ([(0 : ℤ), 7, 8, 12, 13, 100].map
      (fun r => SimDock.get_adaptive_exhaustiveness SimDock.defaultThresholds SimDock.defaultValues r none)
      = [some 8, some 8, some 16, some 16, some 32, some 32]) := by
  refine ⟨?_, ?_, ?_, by decide⟩
  · intro r b h
    simp only [SimDock.get_adaptive_exhaustiveness, SimDock.defaultThresholds,
      SimDock.defaultValues]
    simp [h]
  · intro r b h1 h2
    simp only [SimDock.get_adaptive_exhaustiveness, SimDock.defaultThresholds,
      SimDock.defaultValues]
    simp [h2, not_le.mpr h1]
  · intro r b h
    simp only [SimDock.get_adaptive_exhaustiveness, SimDock.defaultThresholds,
      SimDock.defaultValues]
    have h7 : ¬ r ≤ 7 := by omega
    have h12 : ¬ r ≤ 12 := by omega
    simp [h7, h12]

/-- Witness for C1 at concrete inputs. -/
theorem C1_adaptive_exhaustiveness_default_witness :
    SimDock.get_adaptive_exhaustiveness SimDock.defaultThresholds SimDock.defaultValues 7 (some 4) = some 8 ∧
    SimDock.get_adaptive_exhaustiveness SimDock.defaultThresholds SimDock.defaultValues 8 (some 4) = some 16 ∧
    SimDock.get_adaptive_exhaustiveness SimDock.defaultThresholds SimDock.defaultValues 13 (some 4) = some 32 :=
  ⟨C1_adaptive_exhaustiveness_default.1 7 (some 4) (by decide),
   C1_adaptive_exhaustiveness_default.2.1 8 (some 4) (by decide) (by decide),
   C1_adaptive_exhaustiveness_default.2.2.1 13 (some 4) (by decide)⟩

/-- C9: the result of `get_adaptive_exhaustiveness` is independent of its
`base_exhaustiveness` argument (including the `None` default), and — for any
configuration with at least two thresholds and three values — the result is
always one of the first three configured adaptive values. -/
theorem C9_adaptive_exhaustiveness_base_independent :
    ∀ (ts vs : List ℤ) (r : ℤ) (b1 b2 : Option ℤ),
      SimDock.get_adaptive_exhaustiveness ts vs r b1
        = SimDock.get_adaptive_exhaustiveness ts vs r b2 ∧
      (2 ≤ ts.length → 3 ≤ vs.length →
        ∃ v ∈ vs.take 3, SimDock.get_adaptive_exhaustiveness ts vs r b1 = some v) := by
  intro ts vs r b1 b2
  constructor
  · rfl
  · intro hts hvs
    match ts, hts with
    | t0 :: t1 :: ts, _ =>
      match vs, hvs with
      | v0 :: v1 :: v2 :: vs, _ =>
        simp only [SimDock.get_adaptive_exhaustiveness, List.get?]
        by_cases h0 : r ≤ t0
        · exact ⟨v0, by simp, by simp [h0]⟩
        · by_cases h1 : r ≤ t1
          · exact ⟨v1, by simp, by simp [h0, h1]⟩
          · exact ⟨v2, by simp, by simp [h0, h1]⟩

/-- Witness for C9 at concrete inputs. -/
theorem C9_adaptive_exhaustiveness_base_independent_witness :
    SimDock.get_adaptive_exhaustiveness [7, 12] [8, 16, 32] 9 (some 4)
      = SimDock.get_adaptive_exhaustiveness [7, 12] [8, 16, 32] 9 none ∧
    ∃ v ∈ ([8, 16, 32] : List ℤ).take 3,
      SimDock.get_adaptive_exhaustiveness [7, 12] [8, 16, 32] 9 (some 4) = some v :=
  ⟨(C9_adaptive_exhaustiveness_base_independent [7, 12] [8, 16, 32] 9 (some 4) none).1,
   (C9_adaptive_exhaustiveness_base_independent [7, 12] [8, 16, 32] 9 (some 4) none).2
     (by decide) (by decide)⟩

namespace SimDock

/-! ## Vina output parsing (`core/docking_engine.py` lines 215–231)

```python
def parse_output(self, output_content: str) -> List[Dict[str, Any]]:
    scores = []
    pattern = re.compile(r"^\s*(\d+)\s+([-\d\.]+)\s+([-\d\.]+)\s+([-\d\.]+)")
    for line in output_content.splitlines():
        match = pattern.match(line)
        if match:
            mode, affinity, rmsd_lb, rmsd_ub = match.groups()
            scores.append({
                'Mode': int(mode),
                'Affinity (kcal/mol)': float(affinity),
                'RMSD L.B.': float(rmsd_lb),
                'RMSD U.B.': float(rmsd_ub),
                'Engine': self.get_name()
            })
    return scores
```

The regex alternates the disjoint character classes `\s`, `\d` and `[-\d.]`
separated by mandatory whitespace, so greedy matching never backtracks and
maximal-munch scanning over the character list is an exact embedding of
`pattern.match`.  `float()` is applied to each captured group; on a captured
string that is not a valid float literal it raises `ValueError`, which the
embedding reflects as `none` for the whole call. -/

/-- Python's `\s` class, ASCII part (the relevant inputs are ASCII). -/
def isPySpace (c : Char) : Bool :=
  c = ' ' || c = '\t' || c = '\n' || c = '\r' || c = '\x0b' || c = '\x0c'

/-- The character class `[-\d\.]` of the Vina score regex. -/
def isScoreNumChar (c : Char) : Bool :=
  c.isDigit || c = '-' || c = '.'

/-- Natural-number value of a digit string (`int()` on a `\d+` capture). -/
def natOfDigits (cs : List Char) : ℕ :=
  cs.foldl (fun a c => 10 * a + (c.toNat - '0'.toNat)) 0

/-- Python `float()` on the strings the `[-\d\.]+` capture class can
produce: an optional leading minus, then digits with at most one decimal
point and at least one digit (`"7"`, `"-7.2"`, `"7."`, `".5"` are valid
float literals; anything else in the class — a stray or repeated minus,
two dots, a bare `"."` or `"-"` — raises `ValueError`, embedded as
`none`).  Exponents cannot occur: `e` is outside the capture class. -/
def pyFloat (s : String) : Option ℚ :=
  let cs := s.toList
  let (neg, cs) := match cs with
    | '-' :: rest => (true, rest)
    | _ => (false, cs)
  let intPart := cs.takeWhile (·.isDigit)
  let rest := cs.dropWhile (·.isDigit)
  let val? : Option ℚ :=
    match rest with
    | [] => if intPart.isEmpty then none else some (mkRat (natOfDigits intPart) 1)
    | '.' :: frac =>
      if frac.all (·.isDigit) && !(intPart.isEmpty && frac.isEmpty) then
        some (mkRat (natOfDigits intPart * 10 ^ frac.length + natOfDigits frac)
          (10 ^ frac.length))
      else none
    | _ => none
  val?.map (fun v => if neg then -v else v)

/-- `pattern.match(line)` for
`^\s*(\d+)\s+([-\d\.]+)\s+([-\d\.]+)\s+([-\d\.]+)`: returns the four
captured groups, or `none` when the line does not match at its start. -/
def matchScoreLine (line : String) : Option (String × String × String × String) :=
  let cs0 := line.toList.dropWhile isPySpace
  let d := cs0.takeWhile (·.isDigit)
  let cs1 := cs0.dropWhile (·.isDigit)
  let w1 := cs1.takeWhile isPySpace
  let cs2 := cs1.dropWhile isPySpace
  let n1 := cs2.takeWhile isScoreNumChar
  let cs3 := cs2.dropWhile isScoreNumChar
  let w2 := cs3.takeWhile isPySpace
  let cs4 := cs3.dropWhile isPySpace
  let n2 := cs4.takeWhile isScoreNumChar
  let cs5 := cs4.dropWhile isScoreNumChar
  let w3 := cs5.takeWhile isPySpace
  let cs6 := cs5.dropWhile isPySpace
  let n3 := cs6.takeWhile isScoreNumChar
  if d.isEmpty || w1.isEmpty || n1.isEmpty || w2.isEmpty || n2.isEmpty
      || w3.isEmpty || n3.isEmpty then
    none
  else
    some (String.mk d, String.mk n1, String.mk n2, String.mk n3)

/-- Splitting a character list at `'\n'` (the line terminator of the
embedded inputs), keeping empty segments. -/
def splitAtNewlines : List Char → List (List Char)
  | [] => [[]]
  | c :: rest =>
    if c = '\n' then [] :: splitAtNewlines rest
    else
      match splitAtNewlines rest with
      | [] => [[c]]
      | l :: ls => (c :: l) :: ls

/-- Python `str.splitlines()` for `'\n'`-terminated text: no trailing empty
line is produced for a trailing terminator, and `""` yields `[]`. -/
def pySplitlines (s : String) : List String :=
  match s.toList with
  | [] => []
  | cs =>
    let parts := (splitAtNewlines cs).map String.mk
    if parts.getLast? = some "" then parts.dropLast else parts

/-- One score record of `VinaEngine.parse_output` (the Python dict with
keys `Mode`, `Affinity (kcal/mol)`, `RMSD L.B.`, `RMSD U.B.`, `Engine`). -/
structure VinaScore where
  mode : ℕ
  affinity : ℚ
  rmsd_lb : ℚ
  rmsd_ub : ℚ
  engine : String
  deriving Repr, DecidableEq

/-- The constant `VinaEngine.get_name()`. -/
def vinaEngineName : String := "AutoDock Vina"

/-- The per-line loop body of `parse_output` over the split lines. -/
def parseScoreLines : List String → Option (List VinaScore)
  | [] => some []
  | line :: rest =>
    match matchScoreLine line with
    | none => parseScoreLines rest
    | some (m, a, lb, ub) => do
      let aq ← pyFloat a
      let lbq ← pyFloat lb
      let ubq ← pyFloat ub
      let tail ← parseScoreLines rest
      pure ({ mode := natOfDigits m.toList, affinity := aq, rmsd_lb := lbq,
              rmsd_ub := ubq, engine := vinaEngineName } :: tail)

/-- Embedding of `VinaEngine.parse_output`.  `none` models a `ValueError`
escaping from `float()`. -/
def parse_output (output_content : String) : Option (List VinaScore) :=
  parseScoreLines (pySplitlines output_content)

/-- The literal five-line Vina output block of spec section 8 item 4. -/
def specVinaBlock : String :=
  "mode |  affinity | dist from best mode\n     | (kcal/mol) | rmsd l.b.| rmsd u.b.\n-----+------------+----------+----------\n   1      -7.2         0.0       0.0\n   2      -6.8         1.3       2.1"

end SimDock

/-- C2: `parse_output` produces one score record per matching line in
input-line order, and on the literal five-line Vina block of spec §8 item 4
it yields exactly the two records (mode 1, affinity −7.2, RMSD 0.0/0.0) and
(mode 2, affinity −6.8, RMSD 1.3/2.1), in that order. -/
theorem C2_parse_output_spec_block :
    (∀ s l, SimDock.parse_output s = some l →
      l.length = ((SimDock.pySplitlines s).filter
        (fun ln => (SimDock.matchScoreLine ln).isSome)).length) ∧
    SimDock.parse_output SimDock.specVinaBlock =
      some [⟨1, -(mkRat 72 10), 0, 0, SimDock.vinaEngineName⟩,
            ⟨2, -(mkRat 68 10), mkRat 13 10, mkRat 21 10, SimDock.vinaEngineName⟩] := by
  constructor
  · intro s l h
    rw [SimDock.parse_output] at h
    generalize SimDock.pySplitlines s = lines at *
    induction lines generalizing l with
    | nil =>
      rw [SimDock.parseScoreLines] at h
      injection h with h
      subst h
      rfl
    | cons ln rest ih =>
      rw [SimDock.parseScoreLines] at h
      cases hm : SimDock.matchScoreLine ln with
      | none =>
        rw [hm] at h
        simp [List.filter_cons, hm, ih l h]
      | some g =>
        obtain ⟨m, a, lb, ub⟩ := g
        rw [hm] at h
        simp only [Option.bind_eq_bind, Option.bind_eq_some] at h
        obtain ⟨aq, _, lbq, _, ubq, _, tail, htail, hl⟩ := h
        simp only [Option.pure_def, Option.some.injEq] at hl
        subst hl
        simp [List.filter_cons, hm, ih tail htail]
  · decide

/-- Witness for C2: the per-matching-line count, instantiated on the
concrete spec block. -/
theorem C2_parse_output_spec_block_witness :
    [SimDock.VinaScore.mk 1 (-(mkRat 72 10)) 0 0 SimDock.vinaEngineName,
     SimDock.VinaScore.mk 2 (-(mkRat 68 10)) (mkRat 13 10) (mkRat 21 10)
       SimDock.vinaEngineName].length =
      ((SimDock.pySplitlines SimDock.specVinaBlock).filter
        (fun ln => (SimDock.matchScoreLine ln).isSome)).length :=
  C2_parse_output_spec_block.1 SimDock.specVinaBlock _ C2_parse_output_spec_block.2

namespace SimDock

/-! ## Vina parameter validation (`core/docking_engine.py` lines 233–248)

```python
def validate_parameters(self, center, size) -> bool:
    # Check if center coordinates are numbers
    if not all(isinstance(c, (int, float)) for c in center):
        return False
    # Check if size values are positive
    if not all(s > 0 for s in size):
        return False
    # Check if size values are reasonable
    if any(s < 1.0 or s > 200.0 for s in size):
        return False
    return True
```

`center` and `size` are 3-tuples whose components may be arbitrary Python
values; `isinstance(c, (int, float))` is `False` on a non-numeric value,
while a comparison such as `s > 0` on a non-numeric value raises
`TypeError`.  `all`/`any` short-circuit left to right, so a comparison on a
later non-numeric component is never evaluated once an earlier component
decides the generator.  The embedding returns `none` for an escaping
`TypeError`. -/

/-- A Python value appearing in a parameter tuple: a number (`int`/`float`,
modelled exactly as `ℚ`) or any non-numeric value. -/
inductive PyVal where
  | num (q : ℚ)
  | nonNum
  deriving Repr, DecidableEq

/-- A Python 3-tuple of parameter components. -/
structure PyTriple where
  x : PyVal
  y : PyVal
  z : PyVal
  deriving Repr, DecidableEq

/-- `isinstance(c, (int, float))`. -/
def isNumber : PyVal → Bool
  | .num _ => true
  | .nonNum => false

/-- `all(s > 0 for s in size)`: left-to-right with short-circuit; `none`
models the `TypeError` raised by comparing a non-numeric value. -/
def allPositive : List PyVal → Option Bool
  | [] => some true
  | .num q :: rest => if 0 < q then allPositive rest else some false
  | .nonNum :: _ => none

/-- `any(s < 1.0 or s > 200.0 for s in size)`: left-to-right with
short-circuit; `none` models the `TypeError`. -/
def anyOutOfRange : List PyVal → Option Bool
  | [] => some false
  | .num q :: rest => if q < 1 ∨ 200 < q then some true else anyOutOfRange rest
  | .nonNum :: _ => none

/-- Embedding of `VinaEngine.validate_parameters`; `none` models an
escaping `TypeError`. -/
def validate_parameters (center size : PyTriple) : Option Bool :=
  if !(isNumber center.x && isNumber center.y && isNumber center.z) then
    some false
  else
    match allPositive [size.x, size.y, size.z] with
    | none => none
    | some false => some false
    | some true =>
      match anyOutOfRange [size.x, size.y, size.z] with
      | none => none
      | some true => some false
      | some false => some true

/-- The property the claim states of a size component: a positive numeric
value within 1.0–200.0 Å. -/
def sizeComponentOk : PyVal → Prop
  | .num q => 0 < q ∧ 1 ≤ q ∧ q ≤ 200
  | .nonNum => False

instance : DecidablePred sizeComponentOk := by
  intro v
  cases v <;> simp [sizeComponentOk] <;> infer_instance

end SimDock

/-- C3: `validate_parameters(center, size)` returns `True` iff the three
center components are numeric and the three size components are positive
numeric values each within 1.0–200.0 Å; a size of (0.5, 20, 20) is
rejected, (20, 20, 20) is accepted, (250, 20, 20) is rejected, and any
center containing a non-numeric value is rejected. -/
theorem C3_validate_parameters_characterization :
    (∀ center size : SimDock.PyTriple,
      SimDock.validate_parameters center size = some true ↔
        ((SimDock.isNumber center.x ∧ SimDock.isNumber center.y ∧ SimDock.isNumber center.z) ∧
         SimDock.sizeComponentOk size.x ∧ SimDock.sizeComponentOk size.y ∧
         SimDock.sizeComponentOk size.z)) ∧
    (∀ center size : SimDock.PyTriple,
      (center.x = .nonNum ∨ center.y = .nonNum ∨ center.z = .nonNum) →
      SimDock.validate_parameters center size = some false) ∧
    (SimDock.validate_parameters ⟨.num 0, .num 0, .num 0⟩
        ⟨.num (mkRat 1 2), .num 20, .num 20⟩ = some false ∧
     SimDock.validate_parameters ⟨.num 0, .num 0, .num 0⟩
        ⟨.num 20, .num 20, .num 20⟩ = some true ∧
     SimDock.validate_parameters ⟨.num 0, .num 0, .num 0⟩
        ⟨.num 250, .num 20, .num 20⟩ = some false) := by
  refine ⟨?_, ?_, by decide, by decide, by decide⟩
  · intro center size
    obtain ⟨cx, cy, cz⟩ := center
    obtain ⟨sx, sy, sz⟩ := size
    by_cases hc : SimDock.isNumber cx ∧ SimDock.isNumber cy ∧ SimDock.isNumber cz
    case neg =>
      constructor
      · intro h
        exfalso
        have hb : ¬ (SimDock.isNumber cx && SimDock.isNumber cy && SimDock.isNumber cz) = true := by
          simpa [Bool.and_assoc, and_assoc] using hc
        simp [SimDock.validate_parameters, hb] at h
      · rintro ⟨hcen, -⟩
        exact absurd hcen hc
    case pos =>
      obtain ⟨hcx, hcy, hcz⟩ := hc
      obtain ⟨qcx⟩ := cx
      case nonNum => simp [SimDock.isNumber] at hcx
      obtain ⟨qcy⟩ := cy
      case nonNum => simp [SimDock.isNumber] at hcy
      obtain ⟨qcz⟩ := cz
      case nonNum => simp [SimDock.isNumber] at hcz
      cases sx with
      | nonNum =>
        constructor
        · intro h
          exfalso
          simp [SimDock.validate_parameters, SimDock.isNumber,
            SimDock.allPositive] at h
        · rintro ⟨-, hsx, -, -⟩
          simp [SimDock.sizeComponentOk] at hsx
      | num qx =>
        cases sy with
        | nonNum =>
          constructor
          · intro h
            exfalso
            by_cases hx : 0 < qx <;>
              simp [SimDock.validate_parameters, SimDock.isNumber,
                SimDock.allPositive, hx] at h
          · rintro ⟨-, -, hsy, -⟩
            simp [SimDock.sizeComponentOk] at hsy
        | num qy =>
          cases sz with
          | nonNum =>
            constructor
            · intro h
              exfalso
              by_cases hx : 0 < qx <;> by_cases hy : 0 < qy <;>
                simp [SimDock.validate_parameters, SimDock.isNumber,
                  SimDock.allPositive, hx, hy] at h
            · rintro ⟨-, -, -, hsz⟩
              simp [SimDock.sizeComponentOk] at hsz
          | num qz =>
            constructor
            · intro h
              have hx : 0 < qx := by
                by_contra hk
                simp [SimDock.validate_parameters, SimDock.isNumber,
                  SimDock.allPositive, hk] at h
              have hy : 0 < qy := by
                by_contra hk
                simp [SimDock.validate_parameters, SimDock.isNumber,
                  SimDock.allPositive, hx, hk] at h
              have hz : 0 < qz := by
                by_contra hk
                simp [SimDock.validate_parameters, SimDock.isNumber,
                  SimDock.allPositive, hx, hy, hk] at h
              have rx : ¬ (qx < 1 ∨ 200 < qx) := fun hk => by
                simp [SimDock.validate_parameters, SimDock.isNumber,
                  SimDock.allPositive, SimDock.anyOutOfRange, hx, hy, hz, hk] at h
              have ry : ¬ (qy < 1 ∨ 200 < qy) := fun hk => by
                simp [SimDock.validate_parameters, SimDock.isNumber,
                  SimDock.allPositive, SimDock.anyOutOfRange, hx, hy, hz, rx, hk] at h
              have rz : ¬ (qz < 1 ∨ 200 < qz) := fun hk => by
                simp [SimDock.validate_parameters, SimDock.isNumber,
                  SimDock.allPositive, SimDock.anyOutOfRange, hx, hy, hz, rx, ry, hk] at h
              push_neg at rx ry rz
              exact ⟨⟨rfl, rfl, rfl⟩,
                ⟨hx, rx.1, rx.2⟩, ⟨hy, ry.1, ry.2⟩, ⟨hz, rz.1, rz.2⟩⟩
            · rintro ⟨-, hsx, hsy, hsz⟩
              simp only [SimDock.sizeComponentOk] at hsx hsy hsz
              obtain ⟨hx, hx1, hx2⟩ := hsx
              obtain ⟨hy, hy1, hy2⟩ := hsy
              obtain ⟨hz, hz1, hz2⟩ := hsz
              have rx : ¬ (qx < 1 ∨ 200 < qx) := by push_neg; exact ⟨hx1, hx2⟩
              have ry : ¬ (qy < 1 ∨ 200 < qy) := by push_neg; exact ⟨hy1, hy2⟩
              have rz : ¬ (qz < 1 ∨ 200 < qz) := by push_neg; exact ⟨hz1, hz2⟩
              simp [SimDock.validate_parameters, SimDock.isNumber,
                SimDock.allPositive, SimDock.anyOutOfRange, hx, hy, hz, rx, ry, rz]
  · intro center size h
    obtain ⟨cx, cy, cz⟩ := center
    rcases h with h | h | h <;> subst h <;>
      simp [SimDock.validate_parameters, SimDock.isNumber]

/-- Witness for C3: a non-numeric first center component is rejected. -/
theorem C3_validate_parameters_characterization_witness :
    SimDock.validate_parameters ⟨.nonNum, .num 0, .num 0⟩
      ⟨.num 20, .num 20, .num 20⟩ = some false :=
  C3_validate_parameters_characterization.2.1
    ⟨.nonNum, .num 0, .num 0⟩ ⟨.num 20, .num 20, .num 20⟩ (Or.inl rfl)

namespace SimDock

/-! ## Configuration deep merge (`core/config_manager.py` lines 98–107)

```python
def _deep_merge(self, base: Dict[str, Any], update: Dict[str, Any]) -> Dict[str, Any]:
    result = base.copy()
    for key, value in update.items():
        if (key in result and isinstance(result[key], dict)
            and isinstance(value, dict)):
            result[key] = self._deep_merge(result[key], value)
        else:
            result[key] = value
    return result
```

Python dicts are insertion-ordered with unique keys; they are modelled as
association lists of string keys.  `result[key] = value` replaces the value
of an existing key in place and appends a new key at the end; the loop
threads the accumulating `result` through each update entry, which the
embedding mirrors by recursing on the update list with an updated base. -/

/-- A Python JSON-like configuration value: nested string-keyed dicts,
arrays and scalars. -/
inductive JValue where
  | dict (entries : List (String × JValue))
  | arr (elems : List JValue)
  | str (s : String)
  | num (q : ℚ)
  | bool (b : Bool)
  | null

/-- `key in d` / `d[key]` on a Python dict. -/
def lookupKey : List (String × JValue) → String → Option JValue
  | [], _ => none
  | (k', v) :: rest, k => if k' = k then some v else lookupKey rest k

/-- `d[key] = value` on a Python dict: replace in place if the key exists,
else append at the end. -/
def setKey : List (String × JValue) → String → JValue → List (String × JValue)
  | [], k, v => [(k, v)]
  | (k', v') :: rest, k, v =>
    if k' = k then (k, v) :: rest else (k', v') :: setKey rest k v

mutual

/-- Embedding of `ConfigManager._deep_merge`: fold the update entries in
order into a copy of the base. -/
def _deep_merge : List (String × JValue) → List (String × JValue) → List (String × JValue)
  | base, [] => base
  | base, (k, v) :: rest =>
    _deep_merge (setKey base k (mergeValue (lookupKey base k) v)) rest

/-- The per-key decision of `_deep_merge`: if the key is present in the
accumulating result and both values are dicts, merge recursively, else the
update value wins wholesale. -/
def mergeValue : Option JValue → JValue → JValue
  | some (.dict d), .dict d2 => .dict (_deep_merge d d2)
  | _, v => v

end

/-- `lookupKey` after `setKey` at the same key finds the new value. -/
theorem lookupKey_setKey_self (l : List (String × JValue)) (k : String) (v : JValue) :
    lookupKey (setKey l k v) k = some v := by
  induction l with
  | nil => simp [setKey, lookupKey]
  | cons e rest ih =>
    obtain ⟨k', v'⟩ := e
    by_cases h : k' = k <;> simp [setKey, lookupKey, h, ih]

/-- `lookupKey` after `setKey` at a different key is unchanged. -/
theorem lookupKey_setKey_ne (l : List (String × JValue)) (k k2 : String) (v : JValue)
    (h : k ≠ k2) : lookupKey (setKey l k v) k2 = lookupKey l k2 := by
  induction l with
  | nil => simp [setKey, lookupKey, h]
  | cons e rest ih =>
    obtain ⟨k', v'⟩ := e
    by_cases h' : k' = k
    · subst h'
      simp [setKey, lookupKey, h]
    · simp [setKey, lookupKey, h', ih]

/-- Membership in the keys of `setKey`. -/
theorem mem_keys_setKey (l : List (String × JValue)) (k k2 : String) (v : JValue) :
    k2 ∈ (setKey l k v).map Prod.fst ↔ k2 ∈ l.map Prod.fst ∨ k2 = k := by
  induction l with
  | nil => simp [setKey]
  | cons e rest ih =>
    obtain ⟨k', v'⟩ := e
    by_cases h : k' = k
    · subst h
      simp [setKey]
      tauto
    · simp [setKey, h, ih]
      tauto

/-- `setKey` preserves the no-duplicate-keys invariant of a Python dict. -/
theorem nodup_keys_setKey (l : List (String × JValue)) (k : String) (v : JValue)
    (h : (l.map Prod.fst).Nodup) : ((setKey l k v).map Prod.fst).Nodup := by
  induction l with
  | nil => simp [setKey]
  | cons e rest ih =>
    obtain ⟨k', v'⟩ := e
    simp only [List.map_cons, List.nodup_cons] at h
    by_cases hk : k' = k
    · subst hk
      simpa [setKey] using h
    · simp only [setKey, hk, if_false, List.map_cons, List.nodup_cons]
      refine ⟨?_, ih h.2⟩
      rw [mem_keys_setKey]
      rintro (hm | hm)
      · exact h.1 hm
      · exact hk hm

/-- A key not among a dict's keys looks up to `none`. -/
theorem lookupKey_eq_none (l : List (String × JValue)) (k : String)
    (h : k ∉ l.map Prod.fst) : lookupKey l k = none := by
  induction l with
  | nil => rfl
  | cons e rest ih =>
    obtain ⟨k', v'⟩ := e
    simp only [List.map_cons, List.mem_cons] at h
    push_neg at h
    have hne : ¬ k' = k := fun hh => h.1 hh.symm
    simp [lookupKey, hne, ih h.2]

/-- `mergeValue` is the update value whenever the two sides are not both
dicts. -/
theorem mergeValue_eq_update (o : Option JValue) (v : JValue)
    (h : ∀ d d2, ¬ (o = some (.dict d) ∧ v = .dict d2)) : mergeValue o v = v := by
  match o, v with
  | none, v => cases v <;> rfl
  | some (.dict d), .dict d2 => exact absurd ⟨rfl, rfl⟩ (h d d2)
  | some (.dict d), .arr l => rfl
  | some (.dict d), .str s => rfl
  | some (.dict d), .num q => rfl
  | some (.dict d), .bool b => rfl
  | some (.dict d), .null => rfl
  | some (.arr l), v => cases v <;> rfl
  | some (.str s), v => cases v <;> rfl
  | some (.num q), v => cases v <;> rfl
  | some (.bool b), v => cases v <;> rfl
  | some .null, v => cases v <;> rfl

end SimDock

/-- C6: for every base and override mapping (with the unique-key invariant
of Python dicts), `_deep_merge` yields a mapping where a key absent from
the override keeps its base binding (and a key present only in the override
appears — via the second clause with an absent base binding — with its
override value unchanged), a key present in both whose two values are both
mappings is merged recursively, and any other key present in the override
takes the override value wholesale. -/
theorem C6_deep_merge_invariant :
    ∀ (base update : List (String × SimDock.JValue)),
      (base.map Prod.fst).Nodup → (update.map Prod.fst).Nodup →
      ∀ k : String,
        (SimDock.lookupKey update k = none →
          SimDock.lookupKey (SimDock._deep_merge base update) k
            = SimDock.lookupKey base k) ∧
        (∀ v, SimDock.lookupKey update k = some v →
          (∀ d d2, SimDock.lookupKey base k = some (.dict d) → v = .dict d2 →
            SimDock.lookupKey (SimDock._deep_merge base update) k
              = some (.dict (SimDock._deep_merge d d2))) ∧
          ((∀ d d2, ¬ (SimDock.lookupKey base k = some (.dict d) ∧ v = .dict d2)) →
            SimDock.lookupKey (SimDock._deep_merge base update) k = some v)) := by
  intro base update
  induction update generalizing base with
  | nil =>
    intro hb hu k
    refine ⟨fun _ => ?_, fun v hv => ?_⟩
    · rw [SimDock._deep_merge]
    · simp [SimDock.lookupKey] at hv
  | cons e rest ih =>
    obtain ⟨ku, vu⟩ := e
    intro hb hu k
    simp only [List.map_cons, List.nodup_cons] at hu
    obtain ⟨hku, hrest⟩ := hu
    have hb' : (((SimDock.setKey base ku
        (SimDock.mergeValue (SimDock.lookupKey base ku) vu))).map Prod.fst).Nodup :=
      SimDock.nodup_keys_setKey base ku _ hb
    have hstep : SimDock._deep_merge base ((ku, vu) :: rest)
        = SimDock._deep_merge
            (SimDock.setKey base ku (SimDock.mergeValue (SimDock.lookupKey base ku) vu))
            rest := by
      rw [SimDock._deep_merge]
    by_cases hk : ku = k
    · subst hk
      have hrnone : SimDock.lookupKey rest ku = none :=
        SimDock.lookupKey_eq_none rest ku hku
      have hmerged : SimDock.lookupKey (SimDock._deep_merge base ((ku, vu) :: rest)) ku
          = some (SimDock.mergeValue (SimDock.lookupKey base ku) vu) := by
        rw [hstep, (ih _ hb' hrest ku).1 hrnone, SimDock.lookupKey_setKey_self]
      refine ⟨fun hnone => ?_, fun v hv => ?_⟩
      · simp [SimDock.lookupKey] at hnone
      · have hvu : vu = v := by simpa [SimDock.lookupKey] using hv
        subst hvu
        refine ⟨fun d d2 hbase hdict => ?_, fun hnot => ?_⟩
        · rw [hmerged, hbase, hdict]
          rfl
        · rw [hmerged, SimDock.mergeValue_eq_update _ _ hnot]
    · have hupd : SimDock.lookupKey ((ku, vu) :: rest) k = SimDock.lookupKey rest k := by
        simp [SimDock.lookupKey, hk]
      have hbase' : SimDock.lookupKey
          (SimDock.setKey base ku (SimDock.mergeValue (SimDock.lookupKey base ku) vu)) k
          = SimDock.lookupKey base k :=
        SimDock.lookupKey_setKey_ne base ku k _ hk
      have ih' := ih _ hb' hrest k
      refine ⟨fun hnone => ?_, fun v hv => ?_⟩
      · rw [hstep, ih'.1 (hupd ▸ hnone), hbase']
      · rw [hupd] at hv
        have parts := ih'.2 v hv
        refine ⟨fun d d2 hbase hdict => ?_, fun hnot => ?_⟩
        · rw [hstep]
          exact parts.1 d d2 (hbase' ▸ hbase) hdict
        · rw [hstep]
          exact parts.2 (by rw [hbase']; exact hnot)

/-- Witness for C6 on a concrete base and override: the key present in
both with dict values on both sides is merged recursively. -/
theorem C6_deep_merge_invariant_witness :
    SimDock.lookupKey
      (SimDock._deep_merge
        [("a", .num 1), ("b", .dict [("x", .num 1), ("y", .num 2)])]
        [("b", .dict [("y", .num 3), ("z", .num 4)]), ("c", .str "s")]) "b"
      = some (.dict (SimDock._deep_merge [("x", .num 1), ("y", .num 2)]
          [("y", .num 3), ("z", .num 4)])) :=
  ((C6_deep_merge_invariant
      [("a", .num 1), ("b", .dict [("x", .num 1), ("y", .num 2)])]
      [("b", .dict [("y", .num 3), ("z", .num 4)]), ("c", .str "s")]
      (by decide) (by decide) "b").2
    (.dict [("y", .num 3), ("z", .num 4)]) rfl).1
    [("x", .num 1), ("y", .num 2)] [("y", .num 3), ("z", .num 4)] rfl rfl

namespace SimDock

/-! ## Temp-directory registry (`core/file_manager.py` lines 122–140)

```python
def create_temp_directory(self, prefix: str = "simdock_") -> str:
    # Clean up if we have too many temp directories
    if len(self.temp_dirs) >= self.max_temp_dirs:
        self.cleanup_temp_directories()
    temp_dir = tempfile.mkdtemp(prefix=prefix)
    self.temp_dirs.append(temp_dir)
    return temp_dir

def cleanup_temp_directories(self):
    for temp_dir in self.temp_dirs:
        ...shutil.rmtree(temp_dir, ignore_errors=True)...
    self.temp_dirs.clear()
```

`max_temp_dirs` is 50 (set in `__init__`).  The registry state is the
`temp_dirs` list; `tempfile.mkdtemp` is external, so the fresh directory
name is an input.  The embedding returns the new registry together with a
flag recording whether a cleanup pass ran on this call. -/

/-- `FileManager.max_temp_dirs`. -/
def max_temp_dirs : ℕ := 50

/-- Embedding of `FileManager.create_temp_directory`: the returned flag is
`true` exactly when this call performed a cleanup pass (which deletes all
tracked directories and clears the registry) before tracking `newDir`. -/
def create_temp_directory (temp_dirs : List String) (newDir : String) :
    List String × Bool :=
  if temp_dirs.length ≥ max_temp_dirs then ([newDir], true)
  else (temp_dirs ++ [newDir], false)

/-- A sequence of `create_temp_directory` calls from a given registry,
accumulating the number of cleanup passes performed. -/
def create_temp_directories : List String × ℕ → List String → List String × ℕ
  | s, [] => s
  | s, d :: ds =>
    let r := create_temp_directory s.1 d
    create_temp_directories (r.1, if r.2 then s.2 + 1 else s.2) ds

/-- While the registry stays strictly below the cap, each call just appends
and no cleanup runs. -/
theorem create_temp_directories_below_cap (ds : List String) :
    ∀ (dirs : List String) (c : ℕ), dirs.length + ds.length ≤ max_temp_dirs →
      create_temp_directories (dirs, c) ds = (dirs ++ ds, c) := by
  induction ds with
  | nil => intro dirs c _; simp [create_temp_directories]
  | cons d rest ih =>
    intro dirs c h
    have hlt : ¬ dirs.length ≥ max_temp_dirs := by
      simp only [List.length_cons] at h
      omega
    have hone : create_temp_directory dirs d = (dirs ++ [d], false) := by
      simp [create_temp_directory, hlt]
    have h2 : (dirs ++ [d]).length + rest.length ≤ max_temp_dirs := by
      simp only [List.length_append, List.length_cons, List.length_nil] at h ⊢
      omega
    rw [create_temp_directories]
    simp only [hone, Bool.false_eq_true, if_false]
    rw [ih (dirs ++ [d]) c h2]
    simp

end SimDock

/-- C7: the temp-directory registry never exceeds 50 tracked entries; a
call made with exactly 50 tracked directories performs one cleanup pass
(clearing the registry) and then tracks only the new directory; and
creating 51 directories in sequence from an empty registry performs exactly
one cleanup pass and leaves exactly one tracked entry. -/
theorem C7_temp_directory_cap :
    (∀ (dirs : List String) (d : String), dirs.length ≤ 50 →
      ((SimDock.create_temp_directory dirs d).1).length ≤ 50) ∧
    (∀ (dirs : List String) (d : String), dirs.length = 50 →
      SimDock.create_temp_directory dirs d = ([d], true)) ∧
    (∀ ds : List String, ds.length = 51 →
      (SimDock.create_temp_directories ([], 0) ds).1.length = 1 ∧
      (SimDock.create_temp_directories ([], 0) ds).2 = 1) := by
  refine ⟨?_, ?_, ?_⟩
  · intro dirs d h
    by_cases hc : dirs.length ≥ SimDock.max_temp_dirs
    · simp [SimDock.create_temp_directory, hc]
    · simp only [SimDock.create_temp_directory, hc, if_false, List.length_append,
        List.length_singleton]
      simp only [SimDock.max_temp_dirs, ge_iff_le, not_le] at hc
      omega
  · intro dirs d h
    simp [SimDock.create_temp_directory, SimDock.max_temp_dirs, h]
  · intro ds h
    have hne : ds ≠ [] := by
      intro hnil
      rw [hnil] at h
      simp at h
    have hsplit : ds.dropLast ++ [ds.getLast hne] = ds := List.dropLast_append_getLast hne
    have hlen : ds.dropLast.length = 50 := by
      have := List.length_dropLast ds
      omega
    have hfirst : SimDock.create_temp_directories ([], 0) ds.dropLast
        = (ds.dropLast, 0) := by
      have := SimDock.create_temp_directories_below_cap ds.dropLast [] 0
        (by simp [hlen, SimDock.max_temp_dirs])
      simpa using this
    have happ : ∀ (s : List String × ℕ) (l1 l2 : List String),
        SimDock.create_temp_directories s (l1 ++ l2)
          = SimDock.create_temp_directories (SimDock.create_temp_directories s l1) l2 := by
      intro s l1
      induction l1 generalizing s with
      | nil => intro l2; simp [SimDock.create_temp_directories]
      | cons d rest ih =>
        intro l2
        rw [List.cons_append, SimDock.create_temp_directories,
          SimDock.create_temp_directories]
        exact ih _ l2
    have key : SimDock.create_temp_directories ([], 0) ds
        = SimDock.create_temp_directories (ds.dropLast, 0) [ds.getLast hne] := by
      conv_lhs => rw [← hsplit]
      rw [happ, hfirst]
    have hcap : ds.dropLast.length ≥ SimDock.max_temp_dirs := by
      simp [hlen, SimDock.max_temp_dirs]
    have hone : SimDock.create_temp_directory ds.dropLast (ds.getLast hne)
        = ([ds.getLast hne], true) := by
      unfold SimDock.create_temp_directory
      rw [if_pos hcap]
    have hfinal : SimDock.create_temp_directories ([], 0) ds = ([ds.getLast hne], 1) := by
      rw [key, SimDock.create_temp_directories]
      simp [hone, SimDock.create_temp_directories]
    rw [hfinal]
    exact ⟨rfl, rfl⟩

/-- Witness for C7 at concrete inputs: one tracked directory below the
cap, the cleanup at the cap, and a concrete 51-element run. -/
theorem C7_temp_directory_cap_witness :
    ((SimDock.create_temp_directory ["t0"] "t1").1).length ≤ 50 ∧
    SimDock.create_temp_directory ((List.range 50).map toString) "t50" = (["t50"], true) ∧
    ((SimDock.create_temp_directories ([], 0) ((List.range 51).map toString)).1.length = 1 ∧
     (SimDock.create_temp_directories ([], 0) ((List.range 51).map toString)).2 = 1) :=
  ⟨C7_temp_directory_cap.1 ["t0"] "t1" (by decide),
   C7_temp_directory_cap.2.1 ((List.range 50).map toString) "t50" (by simp),
   C7_temp_directory_cap.2.2 ((List.range 51).map toString) (by simp)⟩

namespace SimDock

/-! ## File signature validation (`core/file_manager.py` lines 170–193)

```python
def _validate_file_signature(self, file_path: str, file_ext: str) -> bool:
    try:
        with open(file_path, 'r', encoding='utf-8', errors='ignore') as f:
            first_lines = [f.readline().strip() for _ in range(5)]
        if file_ext == '.pdb':
            valid_starts = ('ATOM', 'HETATM', 'HEADER', 'TITLE', 'COMPND', 'REMARK')
            return any(line.startswith(valid_starts) for line in first_lines if line)
        elif file_ext == '.sdf':
            return any('V2000' in line or 'V3000' in line for line in first_lines if line)
        elif file_ext == '.mol2':
            return any(line.startswith('@<TRIPOS>') for line in first_lines if line)
        return True
    except Exception:
        return False
```

The file is modelled by its text content.  `readline()` returns successive
`'\n'`-terminated lines (and `''` at end of file), and `.strip()` removes
surrounding whitespace including the terminator, so `first_lines` is the
list of the first five lines of the content, stripped, padded with empty
strings past the end of file — and the generators skip empty strings
(`if line`), so the padding never matters. -/

/-- Python `str.strip()` (whitespace on both ends). -/
def pyStrip (s : String) : String :=
  String.mk ((s.toList.dropWhile isPySpace).reverse.dropWhile isPySpace |>.reverse)

/-- `[f.readline().strip() for _ in range(5)]` on the file content. -/
def firstFiveStrippedLines (content : String) : List String :=
  let lines := (splitAtNewlines content.toList).map String.mk
  ((lines ++ ["", "", "", "", ""]).take 5).map pyStrip

/-- `line.startswith(prefixes)` for a list of alternatives. -/
def startsWithAny (line : String) (alternatives : List String) : Bool :=
  alternatives.any (fun p => p.toList.isPrefixOf line.toList)

/-- Substring search over character lists. -/
def containsAux : List Char → List Char → Bool
  | l, pat =>
    if pat.isPrefixOf l then true
    else
      match l with
      | [] => false
      | _ :: t => containsAux t pat

/-- `sub in line` (contiguous substring test). -/
def pyContains (line sub : String) : Bool :=
  containsAux line.toList sub.toList

/-- Embedding of `FileManager._validate_file_signature` (the file given by
its content; the read itself is assumed to succeed, as in the claim). -/
def _validate_file_signature (content : String) (file_ext : String) : Bool :=
  let first_lines := firstFiveStrippedLines content
  if file_ext = ".pdb" then
    first_lines.any (fun line =>
      line ≠ "" && startsWithAny line ["ATOM", "HETATM", "HEADER", "TITLE", "COMPND", "REMARK"])
  else if file_ext = ".sdf" then
    first_lines.any (fun line =>
      line ≠ "" && (pyContains line "V2000" || pyContains line "V3000"))
  else if file_ext = ".mol2" then
    first_lines.any (fun line =>
      line ≠ "" && startsWithAny line ["@<TRIPOS>"])
  else
    true

end SimDock

/-- C8: a `.pdb` file whose first line is `HEADER   TEST` passes signature
validation while the same file with first line `garbage` (and no other
valid record among its opening lines) fails; a `.sdf` file is accepted iff
one of its first five (stripped, non-empty) lines contains `V2000` or
`V3000`; a `.mol2` file is accepted iff one of its first five (stripped,
non-empty) lines starts with `@<TRIPOS>`. -/
theorem C8_validate_file_signature_rules :
    (SimDock._validate_file_signature "HEADER   TEST\nsome other line" ".pdb" = true) ∧
    (SimDock._validate_file_signature "garbage\nsome other line" ".pdb" = false) ∧
    (∀ content, SimDock._validate_file_signature content ".sdf" = true ↔
      ∃ line ∈ SimDock.firstFiveStrippedLines content, line ≠ "" ∧
        (SimDock.pyContains line "V2000" = true ∨ SimDock.pyContains line "V3000" = true)) ∧
    (∀ content, SimDock._validate_file_signature content ".mol2" = true ↔
      ∃ line ∈ SimDock.firstFiveStrippedLines content, line ≠ "" ∧
        SimDock.startsWithAny line ["@<TRIPOS>"] = true) := by
  refine ⟨by decide, by decide, ?_, ?_⟩
  · intro content
    simp only [SimDock._validate_file_signature]
    rw [if_neg (by decide), if_pos trivial, List.any_eq_true]
    constructor
    · rintro ⟨line, hmem, hp⟩
      simp only [Bool.and_eq_true, decide_eq_true_eq, Bool.or_eq_true] at hp
      exact ⟨line, hmem, hp.1, hp.2⟩
    · rintro ⟨line, hmem, hne, hor⟩
      refine ⟨line, hmem, ?_⟩
      simp only [Bool.and_eq_true, decide_eq_true_eq, Bool.or_eq_true]
      exact ⟨hne, hor⟩
  · intro content
    simp only [SimDock._validate_file_signature]
    rw [if_neg (by decide), if_neg (by decide), if_pos trivial, List.any_eq_true]
    constructor
    · rintro ⟨line, hmem, hp⟩
      simp only [Bool.and_eq_true, decide_eq_true_eq] at hp
      exact ⟨line, hmem, hp.1, hp.2⟩
    · rintro ⟨line, hmem, hne, hpre⟩
      refine ⟨line, hmem, ?_⟩
      simp only [Bool.and_eq_true, decide_eq_true_eq]
      exact ⟨hne, hpre⟩

namespace SimDock

/-! ## Batch docking (`gui/main_window.py` lines 582–673, `_run_batch_docking`)

```python
def _run_batch_docking(self):
    try:
        engine = self.docking_manager.get_engine(self.selected_engine.get())
        ...
        receptor_pdbqt = engine.prepare_receptor(self.receptor_path.get(),
                                                 self.file_manager.create_temp_directory())
        if not receptor_pdbqt:
            raise Exception("Failed to prepare receptor")
        ...
        total_ligands = len(self.ligand_library)
        processed_ligands = 0
        for i, ligand_path in enumerate(self.ligand_library):
            ...
            ligand_pdbqt = engine.prepare_ligand(ligand_path, self.file_manager.create_temp_directory())
            if not ligand_pdbqt:
                # Record error but continue with other ligands
                ...append {'Ligand': name, 'Best Affinity (kcal/mol)': 'PREPARATION_ERROR',
                           'OutputFile': '', 'Engine': engine.get_name()}...
                processed_ligands += 1
                continue
            ...
            output_path = os.path.join(self.file_manager.create_temp_directory(),
                                       f"{ligand_name}_out.pdbqt")
            ...
            result = engine.run_docking(...)
            with self.thread_lock:
                if result['success'] and result['scores']:
                    best_score = result['scores'][0]['Affinity (kcal/mol)']
                    for score_details in result['scores']:
                        self.full_batch_results.append({'Ligand': ligand_name, **score_details})
                else:
                    best_score = 'DOCKING_ERROR'
                self.batch_results_summary.append({'Ligand': ligand_name,
                    'Best Affinity (kcal/mol)': best_score,
                    'OutputFile': output_path, 'Engine': engine.get_name()})
            processed_ligands += 1
        # Check if any ligands were successfully processed
        if processed_ligands == 0:
            raise Exception("No ligands were successfully processed")
        ...
        self.root.after(0, self._on_batch_docking_complete)
    except Exception as e:
        self.root.after(0, lambda err=str(e): self._on_docking_error(err))
```

The embedding abstracts the external effects: `tempfile.mkdtemp` results
are supplied by an environment `tempDirs : ℕ → String` indexed in creation
order; each ligand is given by its name together with the outcome of its
preparation and docking (`none` = `prepare_ligand` returned `None`;
`some (success, scores)` = the `run_docking` result's `success` flag and
affinity list).  A raised exception (the `_on_docking_error` path) is
`Except.error`; a normal completion (the `_on_batch_docking_complete`
success callback) is `Except.ok` carrying the batch summary and the full
per-score results.  The cancellation flag is modelled as false (never
set), and the exhaustiveness computation — which does not affect the
recorded results — is not tracked. -/

/-- The `Best Affinity (kcal/mol)` field of a batch summary entry: either
a numeric affinity or one of the two error placeholders. -/
inductive BestAffinity where
  | val (q : ℚ)
  | preparationError
  | dockingError
  deriving Repr, DecidableEq

/-- One entry of `batch_results_summary`. -/
structure BatchSummaryEntry where
  ligand : String
  best : BestAffinity
  outputFile : String
  engine : String
  deriving Repr, DecidableEq

/-- The outcome the external world hands one ligand: `none` when
`prepare_ligand` fails, otherwise the docking result's `success` flag and
its parsed affinity list. -/
def LigandOutcome : Type := Option (Bool × List ℚ)

/-- `os.path.join` of a temp directory and a file name (the temp-dir names
used here never end in a separator). -/
def joinPath (dir file : String) : String := dir ++ "/" ++ file

/-- The per-ligand loop of `_run_batch_docking`.  `k` is the index of the
next temp directory to be created; returns the final
(`batch_results_summary`, `full_batch_results`, `processed_ligands`). -/
def batchLigandLoop (tempDirs : ℕ → String) :
    ℕ → List (String × LigandOutcome) →
    List BatchSummaryEntry × List (String × ℚ) × ℕ
  | _, [] => ([], [], 0)
  | k, (name, outcome) :: rest =>
    match outcome with
    | none =>
      -- prepare_ligand consumed one temp directory and returned None
      let (summary, full, processed) := batchLigandLoop tempDirs (k + 1) rest
      (⟨name, .preparationError, "", vinaEngineName⟩ :: summary, full, processed + 1)
    | some (success, scores) =>
      -- one temp directory for ligand preparation, one for the output path
      let output_path := joinPath (tempDirs (k + 1)) (name ++ "_out.pdbqt")
      let best : BestAffinity :=
        if success ∧ scores ≠ [] then .val (scores.headD 0) else .dockingError
      let mine : List (String × ℚ) :=
        if success ∧ scores ≠ [] then scores.map (fun q => (name, q)) else []
      let (summary, full, processed) := batchLigandLoop tempDirs (k + 2) rest
      (⟨name, best, output_path, vinaEngineName⟩ :: summary, mine ++ full, processed + 1)

/-- Embedding of `_run_batch_docking` (after engine selection): receptor
preparation consumes temp directory 0; `Except.error` is the
`_on_docking_error` path, `Except.ok` the `_on_batch_docking_complete`
success callback. -/
def _run_batch_docking (tempDirs : ℕ → String) (receptorPrepOk : Bool)
    (ligands : List (String × LigandOutcome)) :
    Except String (List BatchSummaryEntry × List (String × ℚ)) :=
  if !receptorPrepOk then
    .error "Failed to prepare receptor"
  else
    let (summary, full, processed) := batchLigandLoop tempDirs 1 ligands
    if processed = 0 then
      .error "No ligands were successfully processed"
    else
      .ok (summary, full)

/-- The loop records one summary entry per ligand and counts every ligand
as processed, whatever its outcome. -/
theorem batchLigandLoop_length (tempDirs : ℕ → String) :
    ∀ (ligands : List (String × LigandOutcome)) (k : ℕ),
      (batchLigandLoop tempDirs k ligands).1.length = ligands.length ∧
      (batchLigandLoop tempDirs k ligands).2.2 = ligands.length := by
  intro ligands
  induction ligands with
  | nil => intro k; simp [batchLigandLoop]
  | cons e rest ih =>
    intro k
    obtain ⟨name, outcome⟩ := e
    match outcome with
    | none =>
      simp only [batchLigandLoop, List.length_cons]
      exact ⟨by simp [(ih (k + 1)).1], by simp [(ih (k + 1)).2]⟩
    | some (success, scores) =>
      simp only [batchLigandLoop, List.length_cons]
      exact ⟨by simp [(ih (k + 2)).1], by simp [(ih (k + 2)).2]⟩

end SimDock

/-- C4 (code-bug exhibit): with two ligands that both fail preparation —
so zero ligands are successfully processed and the summary holds only
PREPARATION_ERROR placeholders — the run still completes through the
batch-success callback (`Except.ok`), because `processed_ligands` is
incremented for error ligands too; more generally, for any nonempty ligand
library (with the receptor prepared), the batch always completes through
the success callback, so the claimed zero-success failure report is
unreachable. -/
theorem C4_zero_success_batch_still_completes :
    (SimDock._run_batch_docking (fun _ => "tmp") true
        [("lig1.pdb", none), ("lig2.pdb", none)]
      = .ok ([⟨"lig1.pdb", .preparationError, "", SimDock.vinaEngineName⟩,
              ⟨"lig2.pdb", .preparationError, "", SimDock.vinaEngineName⟩], [])) ∧
    (∀ (tempDirs : ℕ → String) (name : String) (out : SimDock.LigandOutcome)
        (rest : List (String × SimDock.LigandOutcome)),
      ∃ r, SimDock._run_batch_docking tempDirs true ((name, out) :: rest) = .ok r) := by
  constructor
  · rfl
  · intro tempDirs name out rest
    have hp := (SimDock.batchLigandLoop_length tempDirs ((name, out) :: rest) 1).2
    rcases hb : SimDock.batchLigandLoop tempDirs 1 ((name, out) :: rest)
      with ⟨summary, full, processed⟩
    rw [hb] at hp
    simp only [List.length_cons] at hp
    have hnz : ¬ processed = 0 := by omega
    simp only [SimDock._run_batch_docking, Bool.not_true, Bool.false_eq_true,
      if_false, hb]
    simp [hnz]

/-- C5: with three ligands of which exactly the second fails preparation
while the first and third dock successfully (success flag set, nonempty
score lists), the batch summary holds exactly three entries in library
order — the second marked PREPARATION_ERROR, the other two carrying their
best (first) affinity — and the run completes through the batch-success
callback. -/
theorem C5_batch_second_ligand_preparation_error :
    ∀ (tempDirs : ℕ → String) (n1 n2 n3 : String) (a1 a3 : ℚ) (r1 r3 : List ℚ),
      ∃ full : List (String × ℚ),
        SimDock._run_batch_docking tempDirs true
          [(n1, some (true, a1 :: r1)), (n2, none), (n3, some (true, a3 :: r3))]
          = .ok ([⟨n1, .val a1, SimDock.joinPath (tempDirs 2) (n1 ++ "_out.pdbqt"),
                    SimDock.vinaEngineName⟩,
                  ⟨n2, .preparationError, "", SimDock.vinaEngineName⟩,
                  ⟨n3, .val a3, SimDock.joinPath (tempDirs 5) (n3 ++ "_out.pdbqt"),
                    SimDock.vinaEngineName⟩], full) := by
  intro tempDirs n1 n2 n3 a1 a3 r1 r3
  exact ⟨_, rfl⟩

namespace SimDock

/-! ## Project manager (`core/project_manager.py` lines 113–386)

The seven operations on the current project all begin with the guard

```python
if not self.current_project_path:
    raise Exception("No project loaded")
```

placed before the `try:` block and before any other statement, so when no
project is loaded they raise with that exact message and touch nothing.

The embedding passes the manager state (`current_project_path`,
`project_data`) explicitly; external effects are supplied by an
environment (`datetime.now`, `uuid`, `os.path.getsize`, `os.path.exists`,
the `os.walk` size total).  Pure file-system writes (copies, `json.dump`,
`shutil.make_archive`, `os.makedirs`) do not touch the manager state and
are not tracked.  An operation's `Except.error` carries the message
together with the state at the moment of the raise, so an error that
leaves the state unchanged carries the input state itself. -/

/-- One entry of `project_data['files']['receptors'|'ligands']`. -/
structure FileEntry where
  name : String
  path : String
  added : String
  file_size : ℕ
  deriving Repr, DecidableEq

/-- One entry of `project_data['docking_sessions']`. -/
structure SessionInfo where
  name : String
  session_file : String
  created : String
  run_type : String
  ligand_count : ℕ
  results_count : ℕ
  deriving Repr, DecidableEq

/-- One entry of `project_data['backups']`. -/
structure BackupInfo where
  name : String
  path : String
  created : String
  size : ℕ
  deriving Repr, DecidableEq

/-- The parts of `project_data` the seven operations read or write.
`backups = none` models the `'backups'` key being absent (it is created on
first use by `backup_project`); `modified = none` models the `'modified'`
key of `project_info` before the first save. -/
structure ProjectData where
  name : String
  created : String
  modified : Option String
  receptors : List FileEntry
  ligands : List FileEntry
  docking_sessions : List SessionInfo
  backups : Option (List BackupInfo)
  deriving Repr, DecidableEq

/-- The `ProjectManager` instance state. -/
structure PMState where
  current_project_path : Option String
  project_data : ProjectData
  deriving Repr, DecidableEq

/-- External inputs of one operation. -/
structure PMEnv where
  nowIso : String
  nowStamp : String
  uuid8 : String
  fileSize : String → ℕ
  pathExists : String → Bool
  walkTotalSize : String → ℕ

/-- `os.path.join` for the relative second components used here. -/
def osJoin (a b : String) : String := a ++ "/" ++ b

/-- `os.path.basename`. -/
def basename (p : String) : String := ((p.splitOn "/").getLast?).getD ""

/-- `os.path.isabs` (POSIX model). -/
def isAbs (p : String) : Bool := p.startsWith "/"

/-- `os.path.relpath(p, root)` for a path lying under `root` (the form the
manager stores; other arguments never arise in the modelled flows). -/
def relpathModel (p root : String) : String :=
  if (root ++ "/").isPrefixOf p then p.drop (root.length + 1) else p

/-- `_update_paths_to_relative` on one file entry. -/
def relativizeEntry (root : String) (e : FileEntry) : FileEntry :=
  if isAbs e.path then { e with path := relpathModel e.path root } else e

/-- `_update_paths_to_absolute` on one file entry. -/
def absolutizeEntry (root : String) (e : FileEntry) : FileEntry :=
  if !isAbs e.path then { e with path := osJoin root e.path } else e

/-- Embedding of `ProjectManager._update_paths_to_relative`. -/
def _update_paths_to_relative (root : String) (pd : ProjectData) : ProjectData :=
  { pd with
    receptors := pd.receptors.map (relativizeEntry root)
    ligands := pd.ligands.map (relativizeEntry root)
    docking_sessions := pd.docking_sessions.map (fun s =>
      if isAbs s.session_file then { s with session_file := relpathModel s.session_file root }
      else s) }

/-- Embedding of `ProjectManager._update_paths_to_absolute`. -/
def _update_paths_to_absolute (root : String) (pd : ProjectData) : ProjectData :=
  { pd with
    receptors := pd.receptors.map (absolutizeEntry root)
    ligands := pd.ligands.map (absolutizeEntry root)
    docking_sessions := pd.docking_sessions.map (fun s =>
      if !isAbs s.session_file then { s with session_file := osJoin root s.session_file }
      else s) }

/-- Embedding of `ProjectManager.save_project`: guard, stamp the
modification time, relativize for storage, write `project.json` (pure
I/O), re-absolutize.  The error carries the state at the raise. -/
def save_project (env : PMEnv) (st : PMState) : Except (String × PMState) PMState :=
  match st.current_project_path with
  | none => .error ("No project loaded", st)
  | some root =>
    if root = "" then .error ("No project loaded", st)
    else
      let pd := { st.project_data with modified := some env.nowIso }
      let pd := _update_paths_to_relative root pd
      let pd := _update_paths_to_absolute root pd
      .ok { st with project_data := pd }

/-- Embedding of `ProjectManager.add_receptor`. -/
def add_receptor (env : PMEnv) (st : PMState) (receptor_path : String)
    (copy_file : Bool) : Except (String × PMState) (String × PMState) :=
  match st.current_project_path with
  | none => .error ("No project loaded", st)
  | some root =>
    if root = "" then .error ("No project loaded", st)
    else
      let receptor_name := basename receptor_path
      let stored_path :=
        if copy_file then osJoin (osJoin root "receptors") receptor_name
        else receptor_path
      let info : FileEntry :=
        ⟨receptor_name, stored_path, env.nowIso, env.fileSize receptor_path⟩
      let st2 := { st with project_data :=
        { st.project_data with receptors := st.project_data.receptors ++ [info] } }
      match save_project env st2 with
      | .error (e, st3) => .error ("Failed to add receptor: " ++ e, st3)
      | .ok st3 => .ok (stored_path, st3)

/-- Embedding of `ProjectManager.add_ligands`. -/
def add_ligands (env : PMEnv) (st : PMState) (ligand_paths : List String)
    (copy_files : Bool) : Except (String × PMState) (List String × PMState) :=
  match st.current_project_path with
  | none => .error ("No project loaded", st)
  | some root =>
    if root = "" then .error ("No project loaded", st)
    else
      let entries := ligand_paths.map (fun p =>
        let ligand_name := basename p
        let stored_path :=
          if copy_files then osJoin (osJoin root "ligands") ligand_name else p
        (⟨ligand_name, stored_path, env.nowIso, env.fileSize p⟩ : FileEntry))
      let st2 := { st with project_data :=
        { st.project_data with ligands := st.project_data.ligands ++ entries } }
      match save_project env st2 with
      | .error (e, st3) => .error ("Failed to add ligands: " ++ e, st3)
      | .ok st3 => .ok (entries.map (·.path), st3)

/-- The session-data mapping handed to `save_docking_session` (the keys it
reads). -/
structure SessionData where
  receptor_pdbqt_path : Option String
  single_docking_output_path : Option String
  batch_results_summary : List BatchSummaryEntry
  ligand_library : List String
  last_results : List VinaScore
  last_run_type : Option String

/-- Embedding of `ProjectManager.save_docking_session` (the file copies
into the session folder are pure I/O; the appended session summary and the
subsequent save are the state change). -/
def save_docking_session (env : PMEnv) (st : PMState) (session_data : SessionData) :
    Except (String × PMState) (String × PMState) :=
  match st.current_project_path with
  | none => .error ("No project loaded", st)
  | some root =>
    if root = "" then .error ("No project loaded", st)
    else
      let session_name := "docking_session_" ++ env.nowStamp ++ "_" ++ env.uuid8
      let session_folder := osJoin (osJoin root "docking_runs") session_name
      let session_file := osJoin session_folder "session.json"
      let session_info : SessionInfo :=
        ⟨session_name, session_file, env.nowIso,
         session_data.last_run_type.getD "unknown",
         session_data.ligand_library.length,
         session_data.last_results.length + session_data.batch_results_summary.length⟩
      let st2 := { st with project_data :=
        { st.project_data with
          docking_sessions := st.project_data.docking_sessions ++ [session_info] } }
      match save_project env st2 with
      | .error (e, st3) => .error ("Failed to save docking session: " ++ e, st3)
      | .ok st3 => .ok (session_file, st3)

/-- Embedding of `ProjectManager.export_results`: builds the export folder
and writes export files (pure I/O); the manager state is not modified. -/
def export_results (env : PMEnv) (st : PMState) (output_format : String)
    (include_files : Bool) : Except (String × PMState) (String × PMState) :=
  match st.current_project_path with
  | none => .error ("No project loaded", st)
  | some root =>
    if root = "" then .error ("No project loaded", st)
    else
      let _fmt := output_format
      let _incl := include_files
      let export_name := "project_export_" ++ env.nowStamp
      let export_path := osJoin (osJoin root "exports") export_name
      .ok (export_path, st)

/-- The summary returned by `get_project_summary`. -/
structure ProjectSummary where
  name : String
  receptors_count : ℕ
  ligands_count : ℕ
  sessions_count : ℕ
  total_file_size : ℕ
  recent_sessions : List SessionInfo
  deriving Repr, DecidableEq

/-- Embedding of `ProjectManager.get_project_summary` (read-only). -/
def get_project_summary (env : PMEnv) (st : PMState) :
    Except (String × PMState) ProjectSummary :=
  match st.current_project_path with
  | none => .error ("No project loaded", st)
  | some root =>
    if root = "" then .error ("No project loaded", st)
    else
      .ok ⟨st.project_data.name,
           st.project_data.receptors.length,
           st.project_data.ligands.length,
           st.project_data.docking_sessions.length,
           env.walkTotalSize root,
           st.project_data.docking_sessions.drop
             (st.project_data.docking_sessions.length - 5)⟩

/-- Embedding of `ProjectManager.backup_project` (`shutil.make_archive` is
pure I/O; the `'backups'` key is created on first use, then the record is
appended and the project saved). -/
def backup_project (env : PMEnv) (st : PMState) :
    Except (String × PMState) (String × PMState) :=
  match st.current_project_path with
  | none => .error ("No project loaded", st)
  | some root =>
    if root = "" then .error ("No project loaded", st)
    else
      let backup_name := "project_backup_" ++ env.nowStamp
      let backup_path := osJoin (osJoin root "backups") backup_name
      let zip_path := backup_path ++ ".zip"
      let backup_info : BackupInfo :=
        ⟨backup_name, zip_path, env.nowIso, env.fileSize zip_path⟩
      let st2 := { st with project_data :=
        { st.project_data with
          backups := some ((st.project_data.backups.getD []) ++ [backup_info]) } }
      match save_project env st2 with
      | .error (e, st3) => .error ("Failed to create backup: " ++ e, st3)
      | .ok st3 => .ok (zip_path, st3)

end SimDock

/-- C10: when no project is loaded (`current_project_path` is `None`),
each of the seven current-project operations — `save_project`,
`add_receptor`, `add_ligands`, `save_docking_session`, `export_results`,
`get_project_summary`, `backup_project` — raises `No project loaded` and
leaves the manager state (both `project_data` and `current_project_path`)
unchanged: the error carries the untouched input state. -/
theorem C10_no_project_operations_raise :
    ∀ (env : SimDock.PMEnv) (st : SimDock.PMState),
      st.current_project_path = none →
      SimDock.save_project env st = .error ("No project loaded", st) ∧
      (∀ rp cf, SimDock.add_receptor env st rp cf = .error ("No project loaded", st)) ∧
      (∀ lps cfs, SimDock.add_ligands env st lps cfs = .error ("No project loaded", st)) ∧
      (∀ sd, SimDock.save_docking_session env st sd = .error ("No project loaded", st)) ∧
      (∀ fmt incl, SimDock.export_results env st fmt incl = .error ("No project loaded", st)) ∧
      SimDock.get_project_summary env st = .error ("No project loaded", st) ∧
      SimDock.backup_project env st = .error ("No project loaded", st) := by
  intro env st h
  obtain ⟨path, pd⟩ := st
  simp only at h
  subst h
  exact ⟨rfl, fun _ _ => rfl, fun _ _ => rfl, fun _ => rfl, fun _ _ => rfl, rfl, rfl⟩

/-- Witness for C10 at a concrete no-project state. -/
theorem C10_no_project_operations_raise_witness :
    SimDock.save_project
        ⟨"2026-01-01T00:00:00", "20260101_000000", "abcd1234",
         fun _ => 0, fun _ => false, fun _ => 0⟩
        ⟨none, ⟨"p", "2026-01-01", none, [], [], [], none⟩⟩
      = .error ("No project loaded", ⟨none, ⟨"p", "2026-01-01", none, [], [], [], none⟩⟩) ∧
    SimDock.backup_project
        ⟨"2026-01-01T00:00:00", "20260101_000000", "abcd1234",
         fun _ => 0, fun _ => false, fun _ => 0⟩
        ⟨none, ⟨"p", "2026-01-01", none, [], [], [], none⟩⟩
      = .error ("No project loaded", ⟨none, ⟨"p", "2026-01-01", none, [], [], [], none⟩⟩) :=
  ⟨(C10_no_project_operations_raise _ _ rfl).1,
   (C10_no_project_operations_raise
      ⟨"2026-01-01T00:00:00", "20260101_000000", "abcd1234",
       fun _ => 0, fun _ => false, fun _ => 0⟩
      ⟨none, ⟨"p", "2026-01-01", none, [], [], [], none⟩⟩ rfl).2.2.2.2.2.2⟩
